import Mathlib

/-!
# Verification of the zenml pipeline-run service slice

Shallow embedding of the reviewed sources:
* `src/zenml/zen_server/routers/runs_endpoints.py` — the Run Service
  endpoints (gate, identifier parsing, store dispatch, error translation);
* `src/zenml/zen_stores/schemas/action_plan_schemas.py` — the
  `ActionPlanSchema` persistence schema with `from_request`, `to_model`
  and `update`.

External collaborators that are not part of the reviewed sources (the
`zen_store` persistence backend, the `authorize` capability, the
`handle_exceptions` translation and the pydantic model classes) are
modelled from the specification, as flagged in the doc comments below.
-/

/-- Identifiers (Python `uuid.UUID` values) are modelled as the natural
number given by their 128-bit hexadecimal value. -/
abbrev UUIDt := Nat

/-- Timestamps (`datetime`) are modelled as abstract natural numbers. -/
abbrev DateTime := Nat

/-! ## Python `uuid.UUID(str)` parsing

`uuid.UUID(hex)` normalises its argument by removing the `urn:` and
`uuid:` tags, stripping surrounding braces and removing every hyphen;
it then requires exactly 32 hexadecimal digits, raising `ValueError`
otherwise. -/

/-- Hexadecimal digit test. -/
def isHexDig (c : Char) : Bool :=
  c.isDigit || (('a' ≤ c) && (c ≤ 'f')) || (('A' ≤ c) && (c ≤ 'F'))

/-- Value of a hexadecimal digit. -/
def hexVal (c : Char) : Nat :=
  if c.isDigit then c.toNat - 48
  else if c ≤ 'F' then c.toNat - 55
  else c.toNat - 87

/-- Removes every occurrence of the substring `urn:`. -/
def removeUrnTag : List Char → List Char
  | 'u' :: 'r' :: 'n' :: ':' :: rest => removeUrnTag rest
  | c :: rest => c :: removeUrnTag rest
  | [] => []

/-- Removes every occurrence of the substring `uuid:`. -/
def removeUuidTag : List Char → List Char
  | 'u' :: 'u' :: 'i' :: 'd' :: ':' :: rest => removeUuidTag rest
  | c :: rest => c :: removeUuidTag rest
  | [] => []

/-- Curly brace test (braces are stripped at both ends, as by
Python's `str.strip`). -/
def isCurly (c : Char) : Bool :=
  c = Char.ofNat 123 || c = Char.ofNat 125

/-- Model of `uuid.UUID(run_id)`: `some` value on success, `none` where
Python raises `ValueError`. -/
def parseUUID (s : String) : Option UUIDt :=
  let cs := removeUuidTag (removeUrnTag s.toList)
  let cs := ((cs.dropWhile isCurly).reverse.dropWhile isCurly).reverse
  let hx := cs.filter (fun c => c ≠ '-')
  if hx.length = 32 && hx.all isHexDig then
    some (hx.foldl (fun acc c => acc * 16 + hexVal c) 0)
  else
    none

/-! ## JSON documents

The runtime-configuration snapshots, component side-effect documents and
action-plan configurations are opaque structured documents; they are
modelled as JSON trees, and `json.dumps` (default separators, no key
sorting) as a rendering function. -/

/-- JSON documents. -/
inductive Json where
  | null : Json
  | bool (b : Bool) : Json
  | num (n : Int) : Json
  | str (s : String) : Json
  | arr (xs : List Json) : Json
  | obj (ps : List (String × Json)) : Json

/-- Escapes the two JSON string metacharacters. -/
def escChar (c : Char) : String :=
  if c = '"' then "\\\""
  else if c = '\\' then "\\\\"
  else String.singleton c

/-- Renders a JSON string literal. -/
def escString (s : String) : String :=
  "\"" ++ String.join (s.toList.map escChar) ++ "\""

mutual

/-- Model of `json.dumps` with `sort_keys=False` and the default
separators `", "` and `": "`. -/
def dumps : Json → String
  | .null => "null"
  | .bool b => if b then "true" else "false"
  | .num n => toString n
  | .str s => escString s
  | .arr xs => "[" ++ dumpsArr xs ++ "]"
  | .obj ps => "\x7b" ++ dumpsObj ps ++ "\x7d"

/-- Renders the comma-separated elements of a JSON array. -/
def dumpsArr : List Json → String
  | [] => ""
  | [x] => dumps x
  | x :: rest => dumps x ++ ", " ++ dumpsArr rest

/-- Renders the comma-separated members of a JSON object. -/
def dumpsObj : List (String × Json) → String
  | [] => ""
  | [p] => escString p.1 ++ ": " ++ dumps p.2
  | p :: rest => escString p.1 ++ ": " ++ dumps p.2 ++ ", " ++ dumpsObj rest

end

/-! ## The `ActionPlanSchema` entity

From `src/zenml/zen_stores/schemas/action_plan_schemas.py`.  The schema
inherits `id`, `created` and `updated` from `BaseSchema` (not among the
reviewed sources; the spec's data model gives every entity an immutable
unique identifier plus creation/update timestamps) and declares
`workspace_id` (a mandatory foreign key column), `flavor` and
`configuration` (a JSON string column).  `workspace_id` is an `Option`
because a freshly constructed schema object may leave the column unset
before it is persisted. -/

structure ActionPlanSchema where
  id : UUIDt
  created : DateTime
  updated : DateTime
  workspace_id : Option UUIDt
  flavor : String
  configuration : String

/-- Modelled from the spec: the pydantic request model
`ActionPlanRequest` (`zenml.models`) is not among the reviewed sources.
Per the spec the entity is workspace-scoped ("workspace reference is
mandatory") and carries a flavor and an opaque structured configuration
document, so the create request carries those three pieces. -/
structure ActionPlanRequest where
  workspace : UUIDt
  flavor : String
  configuration : Json

/-- Modelled from the spec: the pydantic model `ActionPlanUpdate`
(`zenml.models`) is not among the reviewed sources.  The spec describes
the update mechanism as a "generic field-by-field overwrite from an
update object onto a stored entity" whose blanket copying "risks
silently permitting mutation of fields intended to be immutable (e.g.,
workspace linkage)"; accordingly the update object may carry, each
optionally set, any of the schema's assignable columns — including the
workspace linkage named by the spec as the realised risk. -/
structure ActionPlanUpdate where
  flavor : Option String
  configuration : Option String
  workspace_id : Option UUIDt

/-- Modelled from the spec: the response body type
`ActionPlanResponseBody` (`zenml.models`) is not among the reviewed
sources; the constructor call in `to_model` passes exactly `created`
and `updated`. -/
structure ActionPlanResponseBody where
  created : DateTime
  updated : DateTime

/-- Modelled from the spec: the response type `ActionPlanResponse`
(`zenml.models`) is not among the reviewed sources; the constructor
call in `to_model` passes exactly `id` and `body`. -/
structure ActionPlanResponse where
  id : UUIDt
  body : ActionPlanResponseBody

/-- Model of `ActionPlanSchema.from_request`: builds a schema from a create
request, passing only `flavor` and the `json.dumps` serialisation of
the request's configuration to the constructor; `workspace_id` is not
passed and stays unset.  The `id`/`created`/`updated` defaults
generated by the base schema are taken as parameters to keep the
function pure. -/
def ActionPlanSchema.from_request (freshId : UUIDt) (now : DateTime)
    (request : ActionPlanRequest) : ActionPlanSchema :=
  { id := freshId
    created := now
    updated := now
    workspace_id := none
    flavor := request.flavor
    configuration := dumps request.configuration }

/-- Model of `ActionPlanSchema.to_model`: converts the schema into the response
representation.  The source constructs
`ActionPlanResponse(id=self.id, body=ActionPlanResponseBody(created=self.created, updated=self.updated))`
and never reads the `hydrate` flag. -/
def ActionPlanSchema.to_model (s : ActionPlanSchema) (hydrate : Bool) :
    ActionPlanResponse :=
  { id := s.id
    body := { created := s.created, updated := s.updated } }

/-- Model of `ActionPlanSchema.update`: the `for field, value in
update.dict(exclude_unset=True).items(): setattr(self, field, value)`
loop applies every field set on the update object to the schema, then
`self.updated = datetime.utcnow()` overwrites the update timestamp. -/
def ActionPlanSchema.applyUpdate (s : ActionPlanSchema)
    (update : ActionPlanUpdate) (now : DateTime) : ActionPlanSchema :=
  let s1 := match update.flavor with
    | some v => { s with flavor := v }
    | none => s
  let s2 := match update.configuration with
    | some v => { s1 with configuration := v }
    | none => s1
  let s3 := match update.workspace_id with
    | some v => { s2 with workspace_id := some v }
    | none => s2
  { s3 with updated := now }

/-- Object references: `update` is a Python method mutating `self` in
place and returning `self`; a reference heap makes the aliasing
observable. -/
abbrev RefId := Nat

/-- A heap of schema objects indexed by reference. -/
abbrev Heap := RefId → ActionPlanSchema

/-- The `update` method seen through the heap: mutate the schema stored
at reference `r` in place and return that same reference (the source
`return self`). -/
def updateOnHeap (h : Heap) (r : RefId) (u : ActionPlanUpdate)
    (now : DateTime) : Heap × RefId :=
  (fun r' => if r' = r then (h r).applyUpdate u now else h r', r)

/-- Tagged field values, used to talk about which fields a response
projection carries. -/
inductive FieldVal where
  | uuidV (u : UUIDt)
  | timeV (t : DateTime)
deriving DecidableEq

/-- The named fields present on a response, with their values: the
modelled `ActionPlanResponse` carries the identifier and the two body
timestamps. -/
def responseFields (r : ActionPlanResponse) : List (String × FieldVal) :=
  [("id", FieldVal.uuidV r.id),
   ("created", FieldVal.timeV r.body.created),
   ("updated", FieldVal.timeV r.body.updated)]

/-! ## The Run Store

Modelled from the spec: the `zen_store` persistence backend is not
among the reviewed sources (only its callers in
`runs_endpoints.py` are); its operations follow the contract of spec
§4.2 and the error taxonomy of §7. -/

/-- Run lifecycle status (spec §3: "running, completed, failed,
cached, etc."). -/
inductive RunStatus where
  | running
  | completed
  | failed
  | cached
deriving DecidableEq

/-- A workspace/project row, used to resolve name filters. -/
structure Workspace where
  id : UUIDt
  name : String

/-- Modelled from the spec (§3): one execution instance of a pipeline.
The stack and pipeline references are kept as the raw identifier
strings the endpoint layer passes through. -/
structure PipelineRun where
  id : UUIDt
  workspace_id : UUIDt
  pipeline_id : Option String
  stack_id : Option String
  status : RunStatus
  runtime_configuration : Json
  dag_path : Option String

/-- Modelled from the spec (§3): one step's execution within a run. -/
structure StepRun where
  id : UUIDt
  run_id : UUIDt
  name : String
  status : RunStatus

/-- Modelled from the spec (§4.2, §5): the persistence store's state —
the only shared mutable resource. -/
structure StoreState where
  workspaces : List Workspace
  runs : List PipelineRun
  steps : List StepRun
  side_effects : List (UUIDt × String × Json)

/-- The store-signalled error conditions (spec §7). -/
inductive StoreError where
  | notFound
  | artifactUnavailable
  | noSideEffects
deriving DecidableEq

/-- Looks a run up by identifier. -/
def findRun (st : StoreState) (rid : UUIDt) : Option PipelineRun :=
  st.runs.find? (fun r => r.id == rid)

/-- Runs matching the AND of the optional filters; an absent filter is
no constraint (spec §4.2). -/
def filterRuns (st : StoreState) (ws : Option UUIDt)
    (stackId pipelineId : Option String) : List PipelineRun :=
  st.runs.filter (fun r =>
    (match ws with
     | none => true
     | some w => r.workspace_id == w) &&
    (match stackId with
     | none => true
     | some s => r.stack_id == some s) &&
    (match pipelineId with
     | none => true
     | some p => r.pipeline_id == some p))

/-- Modelled from the spec: `zen_store.list_runs`.  A project given by
name is resolved against the workspace table (NotFound when the name
does not exist, per §7: "the referenced ... parent entity does not
exist"); the three filters combine by logical AND. -/
def store_list_runs (st : StoreState) (project : Option (UUIDt ⊕ String))
    (stackId pipelineId : Option String) :
    Except StoreError (List PipelineRun) :=
  match project with
  | none => Except.ok (filterRuns st none stackId pipelineId)
  | some (Sum.inl u) => Except.ok (filterRuns st (some u) stackId pipelineId)
  | some (Sum.inr nm) =>
    match st.workspaces.find? (fun w => w.name == nm) with
    | none => Except.error StoreError.notFound
    | some w => Except.ok (filterRuns st (some w.id) stackId pipelineId)

/-- Modelled from the spec: `zen_store.get_run` — NotFound when no run
with that identifier exists. -/
def store_get_run (st : StoreState) (rid : UUIDt) :
    Except StoreError PipelineRun :=
  match findRun st rid with
  | none => Except.error StoreError.notFound
  | some r => Except.ok r

/-- Modelled from the spec: `zen_store.delete_run` — removes the run
and cascades to its StepRuns as one atomic unit; NotFound when the run
is absent. -/
def store_delete_run (st : StoreState) (rid : UUIDt) :
    Except StoreError StoreState :=
  match findRun st rid with
  | none => Except.error StoreError.notFound
  | some _ =>
    Except.ok { st with
      runs := st.runs.filter (fun r => !(r.id == rid))
      steps := st.steps.filter (fun s => !(s.run_id == rid)) }

/-- Modelled from the spec: `zen_store.get_run_dag` — NotFound when the
run is absent; ArtifactUnavailable when it exists but no DAG
visualisation has been generated. -/
def store_get_run_dag (st : StoreState) (rid : UUIDt) :
    Except StoreError String :=
  match findRun st rid with
  | none => Except.error StoreError.notFound
  | some r =>
    match r.dag_path with
    | none => Except.error StoreError.artifactUnavailable
    | some p => Except.ok p

/-- Modelled from the spec: `zen_store.list_run_steps` — NotFound when
the run is absent, otherwise all steps belonging to the run. -/
def store_list_run_steps (st : StoreState) (rid : UUIDt) :
    Except StoreError (List StepRun) :=
  match findRun st rid with
  | none => Except.error StoreError.notFound
  | some _ => Except.ok (st.steps.filter (fun s => s.run_id == rid))

/-- Modelled from the spec: `zen_store.get_run_runtime_configuration`
— NotFound when the run is absent. -/
def store_get_run_runtime_configuration (st : StoreState) (rid : UUIDt) :
    Except StoreError Json :=
  match findRun st rid with
  | none => Except.error StoreError.notFound
  | some r => Except.ok r.runtime_configuration

/-- Modelled from the spec: `zen_store.get_run_component_side_effects`
— NotFound when the run is absent; NoSideEffects when the run exists
but the named component recorded none. -/
def store_get_run_component_side_effects (st : StoreState) (rid : UUIDt)
    (cid : String) : Except StoreError Json :=
  match findRun st rid with
  | none => Except.error StoreError.notFound
  | some _ =>
    match st.side_effects.find? (fun e => e.1 == rid && e.2.1 == cid) with
    | none => Except.error StoreError.noSideEffects
    | some e => Except.ok e.2.2

/-! ## The Run Service endpoints

From `src/zenml/zen_server/routers/runs_endpoints.py`.  Each handler
body is embedded as written: parse the identifier token with
`uuid.UUID` (raising `ValueError` on malformed tokens), call the one
store method, and record which store methods ran.  The router attaches
`Depends(authorize)` to every endpoint; `@handle_exceptions` is present
on every handler except `get_run_runtime_configuration`. -/

/-- Python-level errors a handler body can raise. -/
inductive PyError where
  | valueError
  | storeErr (e : StoreError)
deriving DecidableEq

/-- The externally-visible failure kinds (spec §7). -/
inductive Failure where
  | unauthorized
  | notFound
  | artifactUnavailable
  | noSideEffects
  | malformedInput
deriving DecidableEq

/-- Outcome of serving a request: a successful value, a translated
externally-visible failure, or an internal error that escaped the
service untranslated (the transport's generic 500, leaking the internal
representation). -/
inductive ApiResult (α : Type) where
  | ok (a : α)
  | failure (f : Failure)
  | unhandledError (e : PyError)

/-- Record of one store-method invocation, for stating what a request
read or changed. -/
inductive StoreCall where
  | listRuns (project : Option (UUIDt ⊕ String)) (stackId pipelineId : Option String)
  | getRun (rid : UUIDt)
  | deleteRun (rid : UUIDt)
  | getRunDag (rid : UUIDt)
  | listRunSteps (rid : UUIDt)
  | getRunRuntimeConfiguration (rid : UUIDt)
  | getRunComponentSideEffects (rid : UUIDt) (cid : String)

/-- Modelled from the spec (§4.1): `parse_optional_name_or_uuid` —
a pure syntactic classifier: parse as identifier first, else treat as
name, `none` when the token was not supplied. -/
def parse_optional_name_or_uuid : Option String → Option (UUIDt ⊕ String)
  | none => none
  | some s =>
    match parseUUID s with
    | some u => some (Sum.inl u)
    | none => some (Sum.inr s)

/-- Modelled from the spec (§6, §7): the `handle_exceptions` decorator
(`zenml.zen_server.utils`, not among the reviewed sources) translates
each internal error into its externally-visible failure kind:
store NotFound/ArtifactUnavailable/NoSideEffects to the like-named
failures, `ValueError` from identifier parsing to MalformedInput. -/
def translateError : PyError → Failure
  | PyError.valueError => Failure.malformedInput
  | PyError.storeErr StoreError.notFound => Failure.notFound
  | PyError.storeErr StoreError.artifactUnavailable => Failure.artifactUnavailable
  | PyError.storeErr StoreError.noSideEffects => Failure.noSideEffects

/-- Finishes a handler body's outcome: with the `handle_exceptions`
decorator present, a raised error is translated to its
externally-visible failure; without it, the error escapes the service
untranslated. -/
def finish {α : Type} (handled : Bool) : Except PyError α → ApiResult α
  | Except.ok a => ApiResult.ok a
  | Except.error e =>
    if handled then ApiResult.failure (translateError e)
    else ApiResult.unhandledError e

/-- The router wrapper: `APIRouter(..., dependencies=[Depends(authorize)])`
attaches the single authorization gate to every endpoint of the router.
An unauthorized caller is rejected before the handler body runs: no
identifier is parsed, no store method is invoked, the store state is
untouched.  Modelled from the spec (§4.4) where the `authorize`
capability itself is concerned: the credentials check is abstracted to
its boolean outcome. -/
def routed {α : Type} (authorized : Bool) (st : StoreState) (handled : Bool)
    (body : Except PyError α × List StoreCall × StoreState) :
    ApiResult α × List StoreCall × StoreState :=
  if authorized then
    (finish handled body.1, body.2.1, body.2.2)
  else
    (ApiResult.failure Failure.unauthorized, [], st)

/-- Handler body of `get_runs`: classify the optional project token,
pass the stack and pipeline tokens through, call `zen_store.list_runs`. -/
def raw_get_runs (st : StoreState)
    (project_name_or_id stack_id pipeline_id : Option String) :
    Except PyError (List PipelineRun) × List StoreCall × StoreState :=
  let pf := parse_optional_name_or_uuid project_name_or_id
  (match store_list_runs st pf stack_id pipeline_id with
   | Except.ok rs => Except.ok rs
   | Except.error e => Except.error (PyError.storeErr e),
   [StoreCall.listRuns pf stack_id pipeline_id], st)

/-- Handler body of `get_run`: `zen_store.get_run(run_id=UUID(run_id))`. -/
def raw_get_run (st : StoreState) (run_id : String) :
    Except PyError PipelineRun × List StoreCall × StoreState :=
  match parseUUID run_id with
  | none => (Except.error PyError.valueError, [], st)
  | some u =>
    (match store_get_run st u with
     | Except.ok r => Except.ok r
     | Except.error e => Except.error (PyError.storeErr e),
     [StoreCall.getRun u], st)

/-- Handler body of `delete_run`: `zen_store.delete_run(run_id=UUID(run_id))`. -/
def raw_delete_run (st : StoreState) (run_id : String) :
    Except PyError Unit × List StoreCall × StoreState :=
  match parseUUID run_id with
  | none => (Except.error PyError.valueError, [], st)
  | some u =>
    match store_delete_run st u with
    | Except.ok st' => (Except.ok (), [StoreCall.deleteRun u], st')
    | Except.error e =>
      (Except.error (PyError.storeErr e), [StoreCall.deleteRun u], st)

/-- Handler body of `get_run_dag`: `zen_store.get_run_dag(run_id=UUID(run_id))`. -/
def raw_get_run_dag (st : StoreState) (run_id : String) :
    Except PyError String × List StoreCall × StoreState :=
  match parseUUID run_id with
  | none => (Except.error PyError.valueError, [], st)
  | some u =>
    (match store_get_run_dag st u with
     | Except.ok p => Except.ok p
     | Except.error e => Except.error (PyError.storeErr e),
     [StoreCall.getRunDag u], st)

/-- Handler body of `get_run_steps`: `zen_store.list_run_steps(UUID(run_id))`. -/
def raw_get_run_steps (st : StoreState) (run_id : String) :
    Except PyError (List StepRun) × List StoreCall × StoreState :=
  match parseUUID run_id with
  | none => (Except.error PyError.valueError, [], st)
  | some u =>
    (match store_list_run_steps st u with
     | Except.ok ss => Except.ok ss
     | Except.error e => Except.error (PyError.storeErr e),
     [StoreCall.listRunSteps u], st)

/-- Handler body of `get_run_runtime_configuration`:
`zen_store.get_run_runtime_configuration(run_id=UUID(run_id))`. -/
def raw_get_run_runtime_configuration (st : StoreState) (run_id : String) :
    Except PyError Json × List StoreCall × StoreState :=
  match parseUUID run_id with
  | none => (Except.error PyError.valueError, [], st)
  | some u =>
    (match store_get_run_runtime_configuration st u with
     | Except.ok d => Except.ok d
     | Except.error e => Except.error (PyError.storeErr e),
     [StoreCall.getRunRuntimeConfiguration u], st)

/-- Handler body of `get_run_component_side_effects`:
`zen_store.get_run_component_side_effects(run_id=UUID(run_id), component_id=component_id)`. -/
def raw_get_run_component_side_effects (st : StoreState)
    (run_id component_id : String) :
    Except PyError Json × List StoreCall × StoreState :=
  match parseUUID run_id with
  | none => (Except.error PyError.valueError, [], st)
  | some u =>
    (match store_get_run_component_side_effects st u component_id with
     | Except.ok d => Except.ok d
     | Except.error e => Except.error (PyError.storeErr e),
     [StoreCall.getRunComponentSideEffects u component_id], st)

/-- Endpoint `GET /runs/` (`get_runs`): gated, decorated with
`@handle_exceptions`. -/
def get_runs (authorized : Bool) (st : StoreState)
    (project_name_or_id stack_id pipeline_id : Option String) :
    ApiResult (List PipelineRun) × List StoreCall × StoreState :=
  routed authorized st true (raw_get_runs st project_name_or_id stack_id pipeline_id)

/-- Endpoint `GET /runs/{run_id}` (`get_run`): gated, decorated with
`@handle_exceptions`. -/
def get_run (authorized : Bool) (st : StoreState) (run_id : String) :
    ApiResult PipelineRun × List StoreCall × StoreState :=
  routed authorized st true (raw_get_run st run_id)

/-- Endpoint `DELETE /runs/{run_id}` (`delete_run`): gated, decorated
with `@handle_exceptions`. -/
def delete_run (authorized : Bool) (st : StoreState) (run_id : String) :
    ApiResult Unit × List StoreCall × StoreState :=
  routed authorized st true (raw_delete_run st run_id)

/-- Endpoint `GET /runs/{run_id}/graph` (`get_run_dag`): gated,
decorated with `@handle_exceptions`. -/
def get_run_dag (authorized : Bool) (st : StoreState) (run_id : String) :
    ApiResult String × List StoreCall × StoreState :=
  routed authorized st true (raw_get_run_dag st run_id)

/-- Endpoint `GET /runs/{run_id}/steps` (`get_run_steps`): gated,
decorated with `@handle_exceptions`. -/
def get_run_steps (authorized : Bool) (st : StoreState) (run_id : String) :
    ApiResult (List StepRun) × List StoreCall × StoreState :=
  routed authorized st true (raw_get_run_steps st run_id)

/-- Endpoint `GET /runs/{run_id}/runtime_configuration`
(`get_run_runtime_configuration`): gated, but the source declares this
one handler WITHOUT the `@handle_exceptions` decorator — the `handled`
flag is `false`. -/
def get_run_runtime_configuration (authorized : Bool) (st : StoreState)
    (run_id : String) : ApiResult Json × List StoreCall × StoreState :=
  routed authorized st false (raw_get_run_runtime_configuration st run_id)

/-- Endpoint `GET /runs/{run_id}/component_side_effects`
(`get_run_component_side_effects`): gated, decorated with
`@handle_exceptions`. -/
def get_run_component_side_effects (authorized : Bool) (st : StoreState)
    (run_id component_id : String) :
    ApiResult Json × List StoreCall × StoreState :=
  routed authorized st true
    (raw_get_run_component_side_effects st run_id component_id)

/-- A uniform response type to range over the operations of the Run
Service. -/
inductive Response where
  | runs (rs : List PipelineRun)
  | run (r : PipelineRun)
  | emptyBody
  | file (path : String)
  | steps (ss : List StepRun)
  | document (d : Json)

/-- One inbound request to the Run Service. -/
inductive Op where
  | listRuns (project stack pipe : Option String)
  | getRun (run_id : String)
  | deleteRun (run_id : String)
  | getRunDag (run_id : String)
  | getRunSteps (run_id : String)
  | getRunRuntimeConfiguration (run_id : String)
  | getRunComponentSideEffects (run_id component_id : String)

/-- Injects an endpoint result into the uniform response type. -/
def mapRes {α : Type} (f : α → Response)
    (x : ApiResult α × List StoreCall × StoreState) :
    ApiResult Response × List StoreCall × StoreState :=
  match x with
  | (ApiResult.ok a, cs, st) => (ApiResult.ok (f a), cs, st)
  | (ApiResult.failure fl, cs, st) => (ApiResult.failure fl, cs, st)
  | (ApiResult.unhandledError e, cs, st) => (ApiResult.unhandledError e, cs, st)

/-- The Run Service's dispatch: routes each request to its endpoint. -/
def dispatch (authorized : Bool) (st : StoreState) :
    Op → ApiResult Response × List StoreCall × StoreState
  | Op.listRuns p s pl => mapRes Response.runs (get_runs authorized st p s pl)
  | Op.getRun rid => mapRes Response.run (get_run authorized st rid)
  | Op.deleteRun rid => mapRes (fun _ => Response.emptyBody) (delete_run authorized st rid)
  | Op.getRunDag rid => mapRes Response.file (get_run_dag authorized st rid)
  | Op.getRunSteps rid => mapRes Response.steps (get_run_steps authorized st rid)
  | Op.getRunRuntimeConfiguration rid =>
    mapRes Response.document (get_run_runtime_configuration authorized st rid)
  | Op.getRunComponentSideEffects rid cid =>
    mapRes Response.document (get_run_component_side_effects authorized st rid cid)

/-! ## Concrete example inputs used by the witnesses and counterexamples -/

/-- The empty store. -/
def stEmpty : StoreState :=
  { workspaces := [], runs := [], steps := [], side_effects := [] }

/-- The canonical textual form of identifier 0. -/
def uuidZeroStr : String := "00000000-0000-0000-0000-000000000000"

/-- The canonical textual form of identifier 1. -/
def uuidOneStr : String := "00000000-0000-0000-0000-000000000001"

/-- An action-plan schema row linked to workspace 10. -/
def apSchemaC3 : ActionPlanSchema :=
  { id := 1, created := 0, updated := 0, workspace_id := some 10,
    flavor := "webhook", configuration := "\x7b\x7d" }

/-- An update object whose only set field is the workspace linkage. -/
def apUpdateC3 : ActionPlanUpdate :=
  { flavor := none, configuration := none, workspace_id := some 11 }

/-- An action-plan schema row linked to workspace 7. -/
def apSchemaW : ActionPlanSchema :=
  { id := 2, created := 3, updated := 3, workspace_id := some 7,
    flavor := "f", configuration := "c" }

/-- An update object that sets only the flavor. -/
def apUpdateW : ActionPlanUpdate :=
  { flavor := some "g", configuration := none, workspace_id := none }

/-- An action-plan schema row with identifier 7. -/
def apSchemaC7 : ActionPlanSchema :=
  { id := 7, created := 1, updated := 2, workspace_id := some 3,
    flavor := "f", configuration := "c" }

/-- A completed pipeline run with identifier 1. -/
def runEx : PipelineRun :=
  { id := 1, workspace_id := 5, pipeline_id := none, stack_id := none,
    status := RunStatus.completed, runtime_configuration := Json.null,
    dag_path := none }

/-- A step belonging to run 1. -/
def stepEx : StepRun :=
  { id := 2, run_id := 1, name := "load", status := RunStatus.completed }

/-- A store holding run 1 and its one step. -/
def stOneRun : StoreState :=
  { workspaces := [], runs := [runEx], steps := [stepEx], side_effects := [] }

/-- The store resulting from deleting run 1 out of `stOneRun`. -/
def stAfterDelete : StoreState :=
  { workspaces := [], runs := [], steps := [], side_effects := [] }

/-! ## Helper lemmas -/

/-- Filtering out every element satisfying `p` leaves nothing for
`find? p` to find. -/
theorem find?_filter_not {α : Type} (l : List α) (p : α → Bool) :
    (l.filter (fun x => !(p x))).find? p = none := by
  rw [List.find?_eq_none]
  intro x hx
  have h2 := (List.mem_filter.mp hx).2
  simp at h2
  simp [h2]

/-- A successful store-level delete leaves no run with the deleted
identifier, so a second store-level delete signals NotFound. -/
theorem store_delete_twice (st st2 : StoreState) (u : UUIDt)
    (h : store_delete_run st u = Except.ok st2) :
    store_delete_run st2 u = Except.error StoreError.notFound := by
  unfold store_delete_run at h ⊢
  cases hf : findRun st u with
  | none => rw [hf] at h; simp at h
  | some r =>
    rw [hf] at h
    injection h with h2
    subst h2
    have hn : findRun { st with
        runs := st.runs.filter (fun r => !(r.id == u))
        steps := st.steps.filter (fun s => !(s.run_id == u)) } u = none := by
      show (st.runs.filter (fun r => !(r.id == u))).find? (fun r => r.id == u) = none
      exact find?_filter_not _ _
    rw [hn]

/-! ## The claims -/

/-- C1: the claim quantifies over all six Run Service operations, but
`get_run_runtime_configuration` is the one handler the source leaves
without the `@handle_exceptions` decorator: on an absent run the Store's
NotFound escapes the service as an untranslated internal error, while
the identically-shaped `get_run` translates it to the NotFound failure.
This is evaluated here at the concrete failing input (empty store,
well-formed identifier 0, authorized caller). -/
theorem runtime_configuration_error_escapes :
    (get_run_runtime_configuration true stEmpty uuidZeroStr).1
      = ApiResult.unhandledError (PyError.storeErr StoreError.notFound) ∧
    (get_run true stEmpty uuidZeroStr).1 = ApiResult.failure Failure.notFound :=
  ⟨rfl, rfl⟩

/-- C2: for every one of the Run Service operations, an unauthorized
caller is rejected with the Unauthorized failure by the single
router-level gate: no store method is invoked and the store state is
unchanged, with no operation-specific authorization logic — the result
is literally the same for every operation. -/
theorem unauthorized_rejected_uniformly (st : StoreState) (op : Op) :
    dispatch false st op = (ApiResult.failure Failure.unauthorized, [], st) := by
  cases op <;> rfl

/-- C3 counterexample: the reflection-driven `update` copies every field
set on the update object onto the stored entity, so an update object
carrying a workspace value changes the entity's workspace linkage:
applying `apUpdateC3` (workspace 11) to `apSchemaC3` (workspace 10)
yields workspace 11. -/
theorem update_changes_workspace_linkage :
    (apSchemaC3.applyUpdate apUpdateC3 5).workspace_id ≠ apSchemaC3.workspace_id := by
  decide

/-- C3 amended: the update leaves the workspace linkage, the identifier
and the creation timestamp unchanged provided the update object does not
set a workspace value; nothing in the update function itself protects
the workspace linkage. -/
theorem update_mutates_only_set_fields (s : ActionPlanSchema)
    (u : ActionPlanUpdate) (now : DateTime) (hw : u.workspace_id = none) :
    (s.applyUpdate u now).workspace_id = s.workspace_id ∧
    (s.applyUpdate u now).id = s.id ∧
    (s.applyUpdate u now).created = s.created := by
  unfold ActionPlanSchema.applyUpdate
  rw [hw]
  cases u.flavor <;> cases u.configuration <;> simp

/-- C3 witness: the amended statement at a concrete input — an update
setting only the flavor leaves workspace linkage, identifier and
creation timestamp of `apSchemaW` unchanged. -/
theorem update_mutates_only_set_fields_witness :
    (apSchemaW.applyUpdate apUpdateW 9).workspace_id = apSchemaW.workspace_id ∧
    (apSchemaW.applyUpdate apUpdateW 9).id = apSchemaW.id ∧
    (apSchemaW.applyUpdate apUpdateW 9).created = apSchemaW.created :=
  update_mutates_only_set_fields apSchemaW apUpdateW 9 rfl

/-- C4: the claim requires every identifier-taking operation to fail
with MalformedInput before any store call on an unparseable token; the
undecorated `get_run_runtime_configuration` does fail before any store
call (no store method recorded, state untouched) but its `ValueError`
escapes untranslated instead of surfacing as MalformedInput, unlike
`get_run`, which translates it.  Evaluated at the concrete failing
token. -/
theorem runtime_configuration_malformed_token_escapes :
    get_run_runtime_configuration true stEmpty "not-a-uuid"
      = (ApiResult.unhandledError PyError.valueError, [], stEmpty) ∧
    (get_run true stEmpty "not-a-uuid").1 = ApiResult.failure Failure.malformedInput ∧
    (get_run true stEmpty "not-a-uuid").2.1 = [] :=
  ⟨rfl, rfl, rfl⟩

/-- C5: delete is not idempotent — whenever `delete_run` succeeds for a
token, an immediately following `delete_run` of the same token on the
resulting store state fails with the NotFound failure. -/
theorem delete_run_second_not_found (st st' : StoreState) (rid : String)
    (cs : List StoreCall)
    (h : delete_run true st rid = (ApiResult.ok (), cs, st')) :
    (delete_run true st' rid).1 = ApiResult.failure Failure.notFound := by
  unfold delete_run routed raw_delete_run at h ⊢
  simp only [if_true] at h ⊢
  cases hp : parseUUID rid with
  | none =>
    rw [hp] at h
    simp [finish] at h
  | some u =>
    rw [hp] at h
    dsimp only at h
    dsimp only
    cases hd : store_delete_run st u with
    | error e =>
      rw [hd] at h
      simp [finish] at h
    | ok st2 =>
      rw [hd] at h
      dsimp only at h
      simp only [finish, Prod.mk.injEq, true_and] at h
      obtain ⟨hcs, hst⟩ := h
      subst hst
      rw [store_delete_twice st st2 u hd]
      simp [finish, translateError]

/-- C5 witness: deleting run 1 from `stOneRun` succeeds and empties the
store; the second delete of the same identifier fails with NotFound. -/
theorem delete_run_second_not_found_witness :
    delete_run true stOneRun uuidOneStr
      = (ApiResult.ok (), [StoreCall.deleteRun 1], stAfterDelete) ∧
    (delete_run true stAfterDelete uuidOneStr).1
      = ApiResult.failure Failure.notFound :=
  ⟨rfl, delete_run_second_not_found stOneRun stAfterDelete uuidOneStr
    [StoreCall.deleteRun 1] rfl⟩

/-- C6: deletion cascades — after a successful store-level delete of
run `u`, `list_run_steps u` on the resulting state fails with NotFound
(the run itself is gone, rather than an empty sequence being returned)
and no step of `u` remains in the store. -/
theorem cascade_steps_gone (st st' : StoreState) (u : UUIDt)
    (h : store_delete_run st u = Except.ok st') :
    store_list_run_steps st' u = Except.error StoreError.notFound ∧
    ∀ s ∈ st'.steps, s.run_id ≠ u := by
  unfold store_delete_run at h
  cases hf : findRun st u with
  | none => rw [hf] at h; simp at h
  | some r =>
    rw [hf] at h
    injection h with h2
    subst h2
    constructor
    · unfold store_list_run_steps
      have hn : findRun { st with
          runs := st.runs.filter (fun r => !(r.id == u))
          steps := st.steps.filter (fun s => !(s.run_id == u)) } u = none := by
        show (st.runs.filter (fun r => !(r.id == u))).find? (fun r => r.id == u) = none
        exact find?_filter_not _ _
      rw [hn]
    · intro s hs
      have h2 := (List.mem_filter.mp hs).2
      simpa using h2

/-- C6 witness: deleting run 1 (which owns step 2) cascades — the
resulting store answers `list_run_steps 1` with NotFound and holds no
step of run 1. -/
theorem cascade_steps_gone_witness :
    store_delete_run stOneRun 1 = Except.ok stAfterDelete ∧
    store_list_run_steps stAfterDelete 1 = Except.error StoreError.notFound ∧
    (∀ s ∈ stAfterDelete.steps, s.run_id ≠ 1) :=
  ⟨rfl, (cascade_steps_gone stOneRun stAfterDelete 1 rfl).1,
    (cascade_steps_gone stOneRun stAfterDelete 1 rfl).2⟩

/-- C7: hydration monotonicity — every field present with its value in
the non-hydrated projection of a stored entity is present with the same
value in the hydrated projection of the same entity. -/
theorem hydration_monotone (s : ActionPlanSchema) (p : String × FieldVal)
    (h : p ∈ responseFields (s.to_model false)) :
    p ∈ responseFields (s.to_model true) := h

/-- C7 witness: the identifier field of `apSchemaC7`, present in the
non-hydrated projection, is present in the hydrated one. -/
theorem hydration_monotone_witness :
    ("id", FieldVal.uuidV 7) ∈ responseFields (apSchemaC7.to_model true) :=
  hydration_monotone apSchemaC7 ("id", FieldVal.uuidV 7) (by decide)

/-- C8: `to_model` yields the same response for both values of the
hydrate flag, and the response carries exactly the identifier and the
two timestamps — no flavor, configuration or workspace field. -/
theorem to_model_hydrate_irrelevant (s : ActionPlanSchema) :
    s.to_model true = s.to_model false ∧
    ∀ b : Bool, (responseFields (s.to_model b)).map Prod.fst
      = ["id", "created", "updated"] :=
  ⟨rfl, fun _ => rfl⟩

/-- C9: the schema constructed by `from_request` carries the request's
flavor and the JSON serialisation of its configuration, and leaves the
mandatory workspace linkage unset even though the request names a
workspace. -/
theorem from_request_fields (i : UUIDt) (t : DateTime) (req : ActionPlanRequest) :
    (ActionPlanSchema.from_request i t req).flavor = req.flavor ∧
    (ActionPlanSchema.from_request i t req).configuration = dumps req.configuration ∧
    (ActionPlanSchema.from_request i t req).workspace_id = none :=
  ⟨rfl, rfl, rfl⟩

/-- C10: for every update object — including one that sets no fields —
`update` overwrites the stored entity's `updated` timestamp with the
current time, mutates the schema object in place on the heap, and
returns the very same reference rather than a copy. -/
theorem update_always_touches_timestamp (h : Heap) (r : RefId)
    (u : ActionPlanUpdate) (t : DateTime) :
    (updateOnHeap h r u t).2 = r ∧
    (updateOnHeap h r u t).1 r = (h r).applyUpdate u t ∧
    ((updateOnHeap h r u t).1 r).updated = t := by
  refine ⟨rfl, ?_, ?_⟩ <;> simp [updateOnHeap, ActionPlanSchema.applyUpdate]
